import Mathlib

/-!
Shallow embedding of `dbt/adapters/athena/impl.py` (the `AthenaAdapter` class):
the metadata-discovery, catalog-assembly, storage-location and storage-cleanup
layer of the dbt Athena adapter.

Conventions of the embedding:
* Python dict values that can hold several Python types are modelled by the
  inductive `Value`.
* A catalog row (the dict built inside `_get_one_catalog`) is an association
  list `List (String × Value)` whose order is the dict's key-insertion order,
  which the source relies on ("dict key order is preserved in language level").
* Remote AWS calls are modelled by function parameters supplying their
  results; a paginated Glue table stream that can raise `ClientError`
  mid-pagination is a `GlueStream`: the tables yielded before the failure,
  plus the optional terminal error.
* Python exceptions are modelled by `Except` results: `PyError.runtime` is
  `dbt.exceptions.RuntimeException`, `PyError.valueError` is `ValueError`,
  `PyError.unboundLocal` is Python's `UnboundLocalError`.
* Object-storage deletion (`s3_bucket.objects.filter(Prefix=pfx).delete()`)
  is modelled by emitting the pair (bucket, key-prefix) meaning "delete every
  object under this bucket/key-prefix"; a function's list of emitted pairs is
  its list of delete calls.
-/

/-- A botocore `ClientError`: carries `e.response["Error"]["Code"]` and
`e.response["Error"]["Message"]`. -/
structure ClientError where
  code : String
  message : String
deriving DecidableEq, Repr

/-- Python exception kinds raised by the embedded code. -/
inductive PyError where
  /-- `dbt.exceptions.RuntimeException msg`. -/
  | runtime : String → PyError
  /-- `ValueError msg`. -/
  | valueError : String → PyError
  /-- Python `UnboundLocalError` on reading the named unassigned local. -/
  | unboundLocal : String → PyError
deriving DecidableEq, Repr

/-- `dbt.contracts.relation.RelationType` (the two members this adapter uses). -/
inductive RelationType where
  | table : RelationType
  | view : RelationType
deriving DecidableEq, Repr

/-- One Glue column dict: keys `Name`, `Type`, optional `Comment`. -/
structure GlueColumn where
  name : String
  typ : String
  comment : Option String
deriving DecidableEq, Repr

/-- One Glue table description as consumed by the source: keys `Name`,
`TableType`, `StorageDescriptor.Columns`, `PartitionKeys`, the optional
keys read with `.get`, the required keys `CreatedBy` and
`StorageDescriptor.Compressed`, and optional `StorageDescriptor.Location`. -/
structure GlueTable where
  name : String
  tableType : String
  columns : List GlueColumn
  partitionKeys : List GlueColumn
  description : Option String
  owner : Option String
  createTime : Option String
  updateTime : Option String
  createdBy : String
  location : Option String
  compressed : Bool
deriving DecidableEq, Repr

/-- A value stored in a catalog-row dict. -/
inductive Value where
  | str : String → Value
  | bool : Bool → Value
  | nat : Nat → Value
  /-- `stats:partitions:value` holds the raw `PartitionKeys` list. -/
  | cols : List GlueColumn → Value
  /-- `table_type` holds the `RelationType` enum member itself. -/
  | relType : RelationType → Value
deriving DecidableEq, Repr

/-- Credentials of the current thread connection: `s3_data_dir` (optional),
`s3_staging_dir`, `s3_data_naming`. -/
structure Credentials where
  s3_data_dir : Option String
  s3_staging_dir : String
  s3_data_naming : String
deriving DecidableEq, Repr

/-- Embeds `AthenaAdapter.s3_table_prefix`: the root location for storing
tables in S3; `s3_data_dir` if set, else `s3_staging_dir` + "tables/". -/
def s3_table_root (creds : Credentials) : String :=
  match creds.s3_data_dir with
  | some d => d
  | none => creds.s3_staging_dir ++ "tables/"

/-- Embeds `AthenaAdapter.s3_uuid_table_location`; the `uuid` argument is the
string returned by this call's `uuid4()`. -/
def s3_uuid_table_location (creds : Credentials) (uuid : String) : String :=
  s3_table_root creds ++ uuid ++ "/"

/-- Embeds `AthenaAdapter.s3_schema_table_location`. -/
def s3_schema_table_location (creds : Credentials) (schema_name table_name : String) : String :=
  s3_table_root creds ++ schema_name ++ "/" ++ table_name ++ "/"

/-- Embeds `AthenaAdapter.s3_table_location`: dispatches on `s3_data_naming`,
raising `ValueError` on an unknown mode. `uuid` is the fresh identifier that
`uuid4()` would produce if the uuid branch is taken. -/
def s3_table_location (creds : Credentials) (uuid : String)
    (schema_name table_name : String) : Except PyError String :=
  if creds.s3_data_naming = "schema_table" then
    .ok (s3_schema_table_location creds schema_name table_name)
  else if creds.s3_data_naming = "uuid" then
    .ok (s3_uuid_table_location creds uuid)
  else
    .error (.valueError ("Unknown value for s3_data_naming: " ++ creds.s3_data_naming))

/-- Embeds `AthenaAdapter.has_s3_data_dir`. -/
def has_s3_data_dir (creds : Credentials) : Bool :=
  creds.s3_data_dir.isSome

/-- Parameters of a `glue_client.get_tables` paginate request as assembled by
`_retrieve_glue_tables`: `DatabaseName`, `MaxResults`, optional `CatalogId`. -/
structure QueryParams where
  databaseName : String
  maxResults : Nat
  catalogId : Option String
deriving DecidableEq, Repr

/-- The observable behaviour of one paginated `get_tables` stream: the table
descriptions yielded (across all pages, in remote-returned order) before the
stream either ends or raises a `ClientError` during pagination. -/
structure GlueStream where
  tables : List GlueTable
  failure : Option ClientError
deriving DecidableEq, Repr

/-- Embeds `AthenaAdapter._retrieve_glue_tables`. `remote` supplies the
paginated stream for given query parameters. The second component of the
result is the list of remote requests issued: empty when a precondition
fails, since the `RuntimeException` is raised before any network call. -/
def retrieve_glue_tables (catalog_id name : String)
    (remote : QueryParams → GlueStream) :
    Except PyError GlueStream × List QueryParams :=
  if catalog_id = "" then
    (.error (.runtime "Glue GetTables: Need catalog id"), [])
  else if name = "" then
    (.error (.runtime "Glue GetTables: Need database name"), [])
  else
    let params : QueryParams :=
      { databaseName := name, maxResults := 50,
        catalogId := if catalog_id ≠ "awsdatacatalog" then some catalog_id else none }
    (.ok (remote params), [params])

/-- Embeds `AthenaAdapter._get_rel_type_from_glue_response`: classify
`TableType`, raising `RuntimeException` on an unknown kind. -/
def get_rel_type_from_glue_response (t : GlueTable) : Except PyError RelationType :=
  if t.tableType = "VIRTUAL_VIEW" then
    .ok .view
  else if t.tableType = "EXTERNAL_TABLE" then
    .ok .table
  else
    .error (.runtime ("Unknown table type " ++ t.tableType ++ " for " ++ t.name))

/-- The quote policy used by `list_relations_without_caching`:
`{"database": True, "schema": True, "identifier": True}`. -/
structure QuotePolicy where
  database : Bool
  schema : Bool
  identifier : Bool
deriving DecidableEq, Repr

/-- The adapter's relation representation, as created by
`self.Relation.create` in `list_relations_without_caching`. -/
structure AthenaRelation where
  database : String
  schema : String
  identifier : String
  quotePolicy : QuotePolicy
  relType : RelationType
  columnInformation : List GlueColumn
deriving DecidableEq, Repr

/-- The per-table body of the loop in `list_relations_without_caching`,
applied to the tables yielded by the Glue stream in order: classify the type
(a `RuntimeException` propagates) and create the relation, whose
`column_information` is `StorageDescriptor.Columns + PartitionKeys`. -/
def relationsFromTables (database schema : String) :
    List GlueTable → Except PyError (List AthenaRelation)
  | [] => .ok []
  | t :: ts =>
    match get_rel_type_from_glue_response t with
    | .error e => .error e
    | .ok rt =>
      match relationsFromTables database schema ts with
      | .error e => .error e
      | .ok rels =>
        .ok ({ database := database, schema := schema, identifier := t.name,
               quotePolicy := ⟨true, true, true⟩, relType := rt,
               columnInformation := t.columns ++ t.partitionKeys } :: rels)

/-- Embeds `AthenaAdapter.list_relations_without_caching`. `sqlFallback` is
the result `super().list_relations_without_caching(schema_relation)` would
return. A `ClientError` during the Glue iteration discards the accumulated
relations and falls back into SQL execution; a `RuntimeException` (unknown
table type, missing identifier) is not a `ClientError` and propagates. -/
def list_relations_without_caching (database schema : String)
    (remote : QueryParams → GlueStream) (sqlFallback : List AthenaRelation) :
    Except PyError (List AthenaRelation) :=
  match (retrieve_glue_tables database schema remote).1 with
  | .error e => .error e
  | .ok st =>
    match relationsFromTables database schema st.tables with
    | .error e => .error e
    | .ok rels =>
      match st.failure with
      | some _ => .ok sqlFallback
      | none => .ok rels

/-- A catalog row: the dict built per (table, column) pair inside
`_get_one_catalog`, as an association list in key-insertion order. -/
abbrev CatalogRow := List (String × Value)

/-- Embeds `AthenaAdapter._create_stats_dict` (default `include=True`). -/
def create_stats_dict (label : String) (value : Value) (description : String)
    (includeFlag : Bool := true) : CatalogRow :=
  [("stats:" ++ label ++ ":label", .str label),
   ("stats:" ++ label ++ ":value", value),
   ("stats:" ++ label ++ ":description", .str description),
   ("stats:" ++ label ++ ":include", .bool includeFlag)]

/-- The table-wide part of a catalog row (`table_row` in `_get_one_catalog`):
table key fields followed by the eight stats quadruples, in the dict's
key-insertion order. -/
def tableRowBase (target_database schema : String) (t : GlueTable)
    (rel_type : RelationType) : CatalogRow :=
  [("table_database", .str target_database),
   ("table_schema", .str schema),
   ("table_name", .str t.name),
   ("table_type", .relType rel_type)]
  ++ create_stats_dict "description" (.str (t.description.getD "")) "Table description"
  ++ create_stats_dict "owner" (.str (t.owner.getD "")) "Table owner"
  ++ create_stats_dict "created_at" (.str (t.createTime.getD "")) "Table creation time"
  ++ create_stats_dict "updated_at" (.str (t.updateTime.getD "")) "Table update time"
  ++ create_stats_dict "created_by" (.str t.createdBy) "Who create it"
  ++ create_stats_dict "partitions" (.cols t.partitionKeys) "Partition keys"
  ++ create_stats_dict "location" (.str (t.location.getD "")) "Table path"
  ++ create_stats_dict "compressed" (.bool t.compressed) "Table has compressed or not"

/-- The per-column row: `row = table_row.copy()` then `row.update({...})`,
appending the four column keys (new keys go at the end of the dict). -/
def columnRow (base : CatalogRow) (idx : Nat) (col : GlueColumn) : CatalogRow :=
  base ++
  [("column_name", .str col.name),
   ("column_type", .str col.typ),
   ("column_index", .nat idx),
   ("column_comment", .str (col.comment.getD ""))]

/-- The rows `_get_one_catalog` produces for one Glue table: classify the
type (a `RuntimeException` propagates), build the table-wide dict, then one
row per column of `descriptor["Columns"] + table["PartitionKeys"]` with a
zero-based `enumerate` index over that combined list. -/
def rowsForTable (target_database schema : String) (t : GlueTable) :
    Except PyError (List CatalogRow) :=
  match get_rel_type_from_glue_response t with
  | .error e => .error e
  | .ok rel_type =>
    let base := tableRowBase target_database schema t rel_type
    .ok ((t.columns ++ t.partitionKeys).enum.map fun p => columnRow base p.1 p.2)

/-- Rows for the tables a single schema's Glue stream yields, in order. -/
def rowsForTables (target_database schema : String) :
    List GlueTable → Except PyError (List CatalogRow)
  | [] => .ok []
  | t :: ts =>
    match rowsForTable target_database schema t with
    | .error e => .error e
    | .ok rows =>
      match rowsForTables target_database schema ts with
      | .error e => .error e
      | .ok more => .ok (rows ++ more)

/-- An error escaping the `for schema in target_schemas` loop of
`_get_one_catalog`: either a `ClientError` (caught by the `except` clause)
or any other Python exception (uncaught, propagates). -/
inductive CatalogFailure where
  | client : ClientError → CatalogFailure
  | py : PyError → CatalogFailure
deriving DecidableEq, Repr

/-- Rows accumulated for one schema: `_retrieve_glue_tables` may raise its
precondition `RuntimeException` (propagates), each yielded table is processed
in order (an unknown table type propagates), and a `ClientError` raised
during pagination — after the yielded tables were processed — escapes as a
`ClientError`. -/
def rowsForSchema (target_database schema : String)
    (remote : QueryParams → GlueStream) : Except CatalogFailure (List CatalogRow) :=
  match (retrieve_glue_tables target_database schema remote).1 with
  | .error e => .error (.py e)
  | .ok st =>
    match rowsForTables target_database schema st.tables with
    | .error e => .error (.py e)
    | .ok rows =>
      match st.failure with
      | some e => .error (.client e)
      | none => .ok rows

/-- The whole `try` body of `_get_one_catalog` up to the `rows` list:
schemas are processed sequentially and the first escaping error aborts. -/
def buildAllRows (target_database : String) (schemas : List String)
    (remote : QueryParams → GlueStream) : Except CatalogFailure (List CatalogRow) :=
  match schemas with
  | [] => .ok []
  | s :: rest =>
    match rowsForSchema target_database s remote with
    | .error e => .error e
    | .ok rows =>
      match buildAllRows target_database rest remote with
      | .error e => .error e
      | .ok more => .ok (rows ++ more)

/-- An agate table as far as this code observes it: column names and rows. -/
structure AgateTable where
  columnNames : List String
  rows : List (List Value)
deriving DecidableEq, Repr

/-- Embeds the `table_from_rows` call of `_get_one_catalog`: column names are
the keys of the first row ("dict key order is preserved in language level"),
each row contributes its values in that order. `table_from_rows([])` is the
empty table. -/
def tableFromRows : List CatalogRow → AgateTable
  | [] => { columnNames := [], rows := [] }
  | r :: rs => { columnNames := r.map Prod.fst,
                 rows := (r :: rs).map fun row => row.map Prod.snd }

/-- Python's `s.lower()` as the schema names here use it, applied
character-wise. -/
def pyLower (s : String) : String :=
  ⟨s.data.map Char.toLower⟩

/-- The working schema list of `_get_one_catalog`: all schemas visible under
the target catalog, filtered case-insensitively against the manifest's used
schemas (`x.lower() in used_schemas`). -/
def targetSchemasOf (usedSchemasRaw schemaList : List String) : List String :=
  let usedSchemas := usedSchemasRaw.map pyLower
  schemaList.filter fun x => usedSchemas.contains (pyLower x)

/-- Embeds `AthenaAdapter._get_one_catalog`. `schemaList` is the result of
`self.list_schemas(target_database)` (a SQL-side call made before the `try`
block), `usedSchemasRaw` the schema names from `manifest.get_used_schemas()`,
`sqlFallbackTable` the raw table `execute_macro(GET_CATALOG_MACRO_NAME, ...)`
would return for the same (information_schema, schemas, manifest), and
`catalogFilter` the post-filter `self._catalog_filter_table(·, manifest)`.
A `ClientError` anywhere in the `try` block discards all accumulated rows and
falls back to the SQL path; any other exception propagates; if no row was
produced, an empty table is returned without applying the post-filter. -/
def get_one_catalog (target_database : String)
    (usedSchemasRaw schemaList : List String)
    (remote : QueryParams → GlueStream)
    (sqlFallbackTable : AgateTable)
    (catalogFilter : AgateTable → AgateTable) : Except PyError AgateTable :=
  let target_schemas := targetSchemasOf usedSchemasRaw schemaList
  match buildAllRows target_database target_schemas remote with
  | .error (.py e) => .error e
  | .error (.client _) => .ok (catalogFilter sqlFallbackTable)
  | .ok rows =>
    if rows.isEmpty then
      .ok (tableFromRows [])
    else
      .ok (catalogFilter (tableFromRows rows))

/-- Splits a character sequence at its first "/": the characters before it
(the match of `[^/]*`) and the characters after it; `none` when no "/"
occurs, in which case the pattern's mandatory "/" cannot match. -/
def splitAtFirstSlash : List Char → Option (List Char × List Char)
  | [] => none
  | c :: cs =>
    if c = '/' then
      some ([], cs)
    else
      (splitAtFirstSlash cs).map fun p => (c :: p.1, p.2)

/-- Embeds matching the compiled pattern `s3://([^/]*)/(.*)` with `p.match`:
the location must start with "s3://", group 1 is the run of characters up to
the first following "/" (the bucket), and a "/" must be present after it;
group 2 is the remainder (the key-prefix, possibly empty). `None` when the
pattern does not match. -/
def parseS3Location (s : String) : Option (String × String) :=
  match s.data with
  | 's' :: '3' :: ':' :: '/' :: '/' :: rest =>
    match splitAtFirstSlash rest with
    | some (bucket, key) => some (⟨bucket⟩, ⟨key⟩)
    | none => none
  | _ => none

/-- One Glue partition dict as consumed by `clean_up_partitions`:
`Values` and `StorageDescriptor.Location`. -/
structure GluePartition where
  values : List String
  location : String
deriving DecidableEq, Repr

/-- A bulk object-storage delete call
`s3_resource.Bucket(bucket).objects.filter(Prefix=pfx).delete()`: deletes
every object in `bucket` under the key-prefix `pfx`. -/
abbrev DeleteCall := String × String

/-- Embeds `AthenaAdapter.clean_up_partitions`. `partitions` is the
`Partitions` list returned by `glue_client.get_partitions` for the given
filter expression; the result is the list of bulk delete calls issued: one
per partition whose location matches the pattern, in order; non-matching
locations are skipped without error. -/
def clean_up_partitions (partitions : List GluePartition) : List DeleteCall :=
  partitions.filterMap fun partition => parseS3Location partition.location

/-- The `glue_client.get_table` response as `clean_up_table` observes it:
either the table dict (its `Table.StorageDescriptor.Location`) or a
`ClientError`. -/
inductive GetTableResult where
  | found : String → GetTableResult
  | clientErr : ClientError → GetTableResult
deriving DecidableEq, Repr

/-- Embeds `AthenaAdapter.clean_up_table`; the result carries the list of
bulk delete calls issued. On `ClientError` with code
"EntityNotFoundException" the function returns (a no-op, zero deletes). On
any other `ClientError` the `except` clause falls through without re-raising
and the following `if table is not None:` reads the local `table`, which was
never assigned — Python raises `UnboundLocalError`. On success `table` is the
response dict (never `None`), its location is matched against
`s3://([^/]*)/(.*)` and, when it matches, one bulk delete is issued. -/
def clean_up_table (getTable : GetTableResult) : Except PyError (List DeleteCall) :=
  match getTable with
  | .clientErr e =>
    if e.code = "EntityNotFoundException" then
      .ok []
    else
      .error (.unboundLocal "table")
  | .found location =>
    match parseS3Location location with
    | some (bucket_name, pfx) => .ok [(bucket_name, pfx)]
    | none => .ok []

/-- Dict lookup on a catalog row: the value at the first occurrence of the
key (keys are unique in the rows the code builds, as in a Python dict). -/
def lookupKey (row : CatalogRow) (k : String) : Option Value :=
  (row.find? fun p => p.1 = k).map Prod.snd

/-- A concrete Glue table description: an external table with storage
columns `a`, `b` and partition key `p`. -/
def sampleExternalTable : GlueTable :=
  { name := "t1", tableType := "EXTERNAL_TABLE",
    columns := [⟨"a", "int", none⟩, ⟨"b", "string", some "cb"⟩],
    partitionKeys := [⟨"p", "date", none⟩],
    description := some "d", owner := none, createTime := none,
    updateTime := none, createdBy := "me", location := some "s3://b/t1",
    compressed := false }

/-- A concrete Glue table description with kind `VIRTUAL_VIEW`. -/
def sampleViewTable : GlueTable :=
  { sampleExternalTable with name := "v1", tableType := "VIRTUAL_VIEW" }

/-- A concrete Glue table description with an unclassifiable kind. -/
def sampleBadKindTable : GlueTable :=
  { sampleExternalTable with name := "x1", tableType := "GOVERNED" }

/-- A remote stream that yields one table and then raises a `ClientError`
during pagination. -/
def sampleFailingRemote : QueryParams → GlueStream :=
  fun _ => { tables := [sampleExternalTable],
             failure := some ⟨"AccessDeniedException", "denied"⟩ }

/-- A remote stream that yields a table of unclassifiable kind and ends. -/
def sampleBadKindRemote : QueryParams → GlueStream :=
  fun _ => { tables := [sampleBadKindTable], failure := none }

/-- A second failing remote stream: different yielded tables, different
terminal `ClientError`. -/
def sampleFailingRemote2 : QueryParams → GlueStream :=
  fun _ => { tables := [sampleViewTable, sampleExternalTable],
             failure := some ⟨"ThrottlingException", "slow down"⟩ }

/-- A concrete stand-in for the raw SQL-macro catalog table. -/
def sampleSqlTable : AgateTable :=
  { columnNames := ["table_database"], rows := [[Value.str "db"]] }

/-- A concrete stand-in for the manifest post-filter: drops every row. -/
def sampleFilter : AgateTable → AgateTable :=
  fun t => { columnNames := t.columnNames, rows := [] }

/-- C4: the table storage root is `s3_data_dir` when set and
`s3_staging_dir` + "tables/" otherwise, and under naming mode
"schema_table" the table location is root + schema + "/" + table + "/";
in particular with `s3_data_dir = None`, `s3_staging_dir = "s3://b/"`,
`s3_table_location("s1","t1")` is `"s3://b/tables/s1/t1/"`. -/
theorem s3_schema_table_location_spec :
    (∀ (creds : Credentials) (d : String),
      creds.s3_data_dir = some d → s3_table_root creds = d) ∧
    (∀ creds : Credentials, creds.s3_data_dir = none →
      s3_table_root creds = creds.s3_staging_dir ++ "tables/") ∧
    (∀ (creds : Credentials) (schema_name table_name : String),
      s3_schema_table_location creds schema_name table_name =
        s3_table_root creds ++ schema_name ++ "/" ++ table_name ++ "/") ∧
    (∀ (creds : Credentials) (uuid schema_name table_name : String),
      creds.s3_data_naming = "schema_table" →
      s3_table_location creds uuid schema_name table_name =
        .ok (s3_schema_table_location creds schema_name table_name)) ∧
    (∀ uuid : String,
      s3_table_location ⟨none, "s3://b/", "schema_table"⟩ uuid "s1" "t1" =
        .ok "s3://b/tables/s1/t1/") := by
  refine ⟨?_, ?_, ?_, ?_, ?_⟩
  · intro creds d h
    simp [s3_table_root, h]
  · intro creds h
    simp [s3_table_root, h]
  · intro creds schema_name table_name
    rfl
  · intro creds uuid schema_name table_name h
    simp [s3_table_location, h]
  · intro uuid
    rfl

/-- Closed instance of `s3_schema_table_location_spec`. -/
theorem s3_schema_table_location_spec_witness :
    s3_table_root ⟨some "s3://d/", "s3://b/", "schema_table"⟩ = "s3://d/" ∧
    s3_table_root ⟨none, "s3://b/", "schema_table"⟩ = "s3://b/" ++ "tables/" ∧
    s3_table_location ⟨none, "s3://b/", "schema_table"⟩ "U" "s1" "t1" =
      .ok (s3_schema_table_location ⟨none, "s3://b/", "schema_table"⟩ "s1" "t1") ∧
    s3_table_location ⟨none, "s3://b/", "schema_table"⟩ "U" "s1" "t1" =
      .ok "s3://b/tables/s1/t1/" :=
  ⟨s3_schema_table_location_spec.1 _ "s3://d/" rfl,
   s3_schema_table_location_spec.2.1 _ rfl,
   s3_schema_table_location_spec.2.2.2.1 _ "U" "s1" "t1" rfl,
   s3_schema_table_location_spec.2.2.2.2 "U"⟩

/-- C9: an `s3_data_naming` value other than "schema_table" and "uuid" makes
`s3_table_location` raise `ValueError` (the adapter's configuration error);
no object-storage call is involved — the embedded function, like the source,
never touches an S3 client. -/
theorem s3_table_location_unknown_naming_spec :
    ∀ (creds : Credentials) (uuid schema_name table_name : String),
      creds.s3_data_naming ≠ "schema_table" → creds.s3_data_naming ≠ "uuid" →
      s3_table_location creds uuid schema_name table_name =
        .error (.valueError
          ("Unknown value for s3_data_naming: " ++ creds.s3_data_naming)) := by
  intro creds uuid schema_name table_name h1 h2
  simp [s3_table_location, h1, h2]

/-- Closed instance of `s3_table_location_unknown_naming_spec`. -/
theorem s3_table_location_unknown_naming_spec_witness :
    s3_table_location ⟨none, "s3://b/", "bogus"⟩ "U" "s1" "t1" =
      .error (.valueError ("Unknown value for s3_data_naming: " ++ "bogus")) :=
  s3_table_location_unknown_naming_spec ⟨none, "s3://b/", "bogus"⟩ "U" "s1" "t1"
    (by decide) (by decide)

/-- C10: under naming mode "uuid", `s3_table_location` returns the uuid
location built from this call's freshly generated identifier; distinct
identifiers (as `uuid4()` yields on successive calls — never cached or
reused) give distinct paths, and every uuid location extends the table
storage root and ends with "/". -/
theorem s3_uuid_table_location_fresh_spec :
    (∀ (creds : Credentials) (uuid schema_name table_name : String),
      creds.s3_data_naming = "uuid" →
      s3_table_location creds uuid schema_name table_name =
        .ok (s3_uuid_table_location creds uuid)) ∧
    (∀ (creds : Credentials) (u1 u2 : String), u1 ≠ u2 →
      s3_uuid_table_location creds u1 ≠ s3_uuid_table_location creds u2) ∧
    (∀ (creds : Credentials) (uuid : String),
      (∃ rest, s3_uuid_table_location creds uuid = s3_table_root creds ++ rest) ∧
      (∃ stem, s3_uuid_table_location creds uuid = stem ++ "/")) := by
  refine ⟨?_, ?_, ?_⟩
  · intro creds uuid schema_name table_name h
    simp [s3_table_location, h]
  · intro creds u1 u2 hne heq
    apply hne
    have h1 : (s3_table_root creds).data ++ (u1.data ++ "/".data) =
        (s3_table_root creds).data ++ (u2.data ++ "/".data) := by
      have hd := congrArg String.data heq
      simpa [s3_uuid_table_location, String.data_append, List.append_assoc] using hd
    have h2 := List.append_cancel_left h1
    have h3 := List.append_cancel_right h2
    exact String.ext h3
  · intro creds uuid
    exact ⟨⟨uuid ++ "/", by rw [s3_uuid_table_location, String.append_assoc]⟩,
           ⟨s3_table_root creds ++ uuid, rfl⟩⟩

/-- Closed instance of `s3_uuid_table_location_fresh_spec`. -/
theorem s3_uuid_table_location_fresh_spec_witness :
    s3_table_location ⟨none, "s3://b/", "uuid"⟩ "u-1" "s1" "t1" =
      .ok (s3_uuid_table_location ⟨none, "s3://b/", "uuid"⟩ "u-1") ∧
    s3_uuid_table_location ⟨none, "s3://b/", "uuid"⟩ "u-1" ≠
      s3_uuid_table_location ⟨none, "s3://b/", "uuid"⟩ "u-2" :=
  ⟨s3_uuid_table_location_fresh_spec.1 _ "u-1" "s1" "t1" rfl,
   s3_uuid_table_location_fresh_spec.2.1 _ "u-1" "u-2" (by decide)⟩

/-- C5: when `get_table` fails with error code "EntityNotFoundException",
`clean_up_table` returns without raising and issues zero delete calls. -/
theorem clean_up_table_not_found_spec :
    ∀ e : ClientError, e.code = "EntityNotFoundException" →
      clean_up_table (.clientErr e) = .ok [] := by
  intro e h
  simp [clean_up_table, h]

/-- Closed instance of `clean_up_table_not_found_spec`. -/
theorem clean_up_table_not_found_spec_witness :
    clean_up_table (.clientErr ⟨"EntityNotFoundException", "not found"⟩) = .ok [] :=
  clean_up_table_not_found_spec ⟨"EntityNotFoundException", "not found"⟩ rfl

/-- C6: when `get_table` fails with a `ClientError` whose code is not
"EntityNotFoundException", `clean_up_table` neither re-raises the original
error nor deletes anything: the `except` branch swallows the error, and the
subsequent `if table is not None:` reads the never-assigned local `table`,
so the caller sees an `UnboundLocalError`. -/
theorem clean_up_table_unbound_local_spec :
    ∀ e : ClientError, e.code ≠ "EntityNotFoundException" →
      clean_up_table (.clientErr e) = .error (.unboundLocal "table") := by
  intro e h
  simp [clean_up_table, h]

/-- Closed instance of `clean_up_table_unbound_local_spec`. -/
theorem clean_up_table_unbound_local_spec_witness :
    clean_up_table (.clientErr ⟨"AccessDeniedException", "denied"⟩) =
      .error (.unboundLocal "table") :=
  clean_up_table_unbound_local_spec ⟨"AccessDeniedException", "denied"⟩ (by decide)

/-- C8: `clean_up_partitions` on zero matched partitions issues zero delete
calls; a partition whose location does not parse as `s3://bucket/key` is
skipped without error and contributes no delete call; a partition whose
location parses contributes the bulk delete of everything under its parsed
bucket/key-prefix; and every issued delete call comes from some partition's
parsed location. -/
theorem clean_up_partitions_spec :
    clean_up_partitions [] = [] ∧
    (∀ partitions : List GluePartition,
      (∀ p ∈ partitions, parseS3Location p.location = none) →
      clean_up_partitions partitions = []) ∧
    (∀ (partitions : List GluePartition) (p : GluePartition) (d : DeleteCall),
      p ∈ partitions → parseS3Location p.location = some d →
      d ∈ clean_up_partitions partitions) ∧
    (∀ (partitions : List GluePartition) (d : DeleteCall),
      d ∈ clean_up_partitions partitions →
      ∃ p ∈ partitions, parseS3Location p.location = some d) := by
  refine ⟨rfl, ?_, ?_, ?_⟩
  · intro partitions h
    exact List.filterMap_eq_nil_iff.mpr h
  · intro partitions p d hp hloc
    exact List.mem_filterMap.mpr ⟨p, hp, hloc⟩
  · intro partitions d hd
    exact List.mem_filterMap.mp hd

/-- Closed instance of `clean_up_partitions_spec`. -/
theorem clean_up_partitions_spec_witness :
    clean_up_partitions [⟨["2020"], "hdfs://b/x"⟩] = [] ∧
    ("b", "k/") ∈ clean_up_partitions [⟨["2020"], "hdfs://b/x"⟩, ⟨["2021"], "s3://b/k/"⟩] :=
  ⟨clean_up_partitions_spec.2.1 [⟨["2020"], "hdfs://b/x"⟩] (by decide),
   clean_up_partitions_spec.2.2.1 [⟨["2020"], "hdfs://b/x"⟩, ⟨["2021"], "s3://b/k/"⟩]
     ⟨["2021"], "s3://b/k/"⟩ ("b", "k/") (by decide) (by decide)⟩

/-- C3: the relation-type classifier maps remote kind "VIRTUAL_VIEW" to
View and "EXTERNAL_TABLE" to Table, and raises an unknown-relation-type
`RuntimeException` on every other kind; being no `ClientError`, that error
propagates out of both `_get_one_catalog` and
`list_relations_without_caching` instead of triggering the SQL fallback. -/
theorem rel_type_mapping_spec :
    (∀ t : GlueTable, t.tableType = "VIRTUAL_VIEW" →
      get_rel_type_from_glue_response t = .ok .view) ∧
    (∀ t : GlueTable, t.tableType = "EXTERNAL_TABLE" →
      get_rel_type_from_glue_response t = .ok .table) ∧
    (∀ t : GlueTable, t.tableType ≠ "VIRTUAL_VIEW" → t.tableType ≠ "EXTERNAL_TABLE" →
      get_rel_type_from_glue_response t =
        .error (.runtime ("Unknown table type " ++ t.tableType ++ " for " ++ t.name))) ∧
    (∀ (target_database : String) (used schemaList : List String)
      (remote : QueryParams → GlueStream) (sqlT : AgateTable)
      (f : AgateTable → AgateTable) (e : PyError),
      buildAllRows target_database (targetSchemasOf used schemaList) remote =
        .error (.py e) →
      get_one_catalog target_database used schemaList remote sqlT f = .error e) ∧
    (∀ (database schema : String) (remote : QueryParams → GlueStream)
      (fb : List AthenaRelation) (st : GlueStream) (e : PyError),
      (retrieve_glue_tables database schema remote).1 = .ok st →
      relationsFromTables database schema st.tables = .error e →
      list_relations_without_caching database schema remote fb = .error e) := by
  refine ⟨?_, ?_, ?_, ?_, ?_⟩
  · intro t h
    simp [get_rel_type_from_glue_response, h]
  · intro t h
    simp [get_rel_type_from_glue_response, h]
  · intro t h1 h2
    simp [get_rel_type_from_glue_response, h1, h2]
  · intro target_database used schemaList remote sqlT f e h
    simp [get_one_catalog, h]
  · intro database schema remote fb st e h1 h2
    simp [list_relations_without_caching, h1, h2]

/-- Closed instance of `rel_type_mapping_spec`. -/
theorem rel_type_mapping_spec_witness :
    get_rel_type_from_glue_response sampleViewTable = .ok .view ∧
    get_rel_type_from_glue_response sampleExternalTable = .ok .table ∧
    get_rel_type_from_glue_response sampleBadKindTable =
      .error (.runtime ("Unknown table type " ++ sampleBadKindTable.tableType ++
        " for " ++ sampleBadKindTable.name)) ∧
    get_one_catalog "awsdatacatalog" ["s1"] ["s1"] sampleBadKindRemote
        sampleSqlTable sampleFilter =
      .error (.runtime "Unknown table type GOVERNED for x1") ∧
    list_relations_without_caching "awsdatacatalog" "s1" sampleBadKindRemote [] =
      .error (.runtime "Unknown table type GOVERNED for x1") :=
  ⟨rel_type_mapping_spec.1 sampleViewTable rfl,
   rel_type_mapping_spec.2.1 sampleExternalTable rfl,
   rel_type_mapping_spec.2.2.1 sampleBadKindTable (by decide) (by decide),
   rel_type_mapping_spec.2.2.2.1 "awsdatacatalog" ["s1"] ["s1"] sampleBadKindRemote
     sampleSqlTable sampleFilter (.runtime "Unknown table type GOVERNED for x1") rfl,
   rel_type_mapping_spec.2.2.2.2 "awsdatacatalog" "s1" sampleBadKindRemote []
     ⟨[sampleBadKindTable], none⟩ (.runtime "Unknown table type GOVERNED for x1") rfl rfl⟩

/-- C7: calling the table-retrieval operation with an empty catalog
identifier or an empty schema name raises a `RuntimeException` before any
remote request is issued (the issued-request list is empty); the error is no
`ClientError`, so it propagates out of `_get_one_catalog` and
`list_relations_without_caching` instead of being converted into the SQL
fallback path. -/
theorem retrieve_glue_tables_precondition_spec :
    (∀ (catalog_id name : String) (remote : QueryParams → GlueStream),
      catalog_id = "" ∨ name = "" →
      (∃ msg, (retrieve_glue_tables catalog_id name remote).1 =
        .error (.runtime msg)) ∧
      (retrieve_glue_tables catalog_id name remote).2 = []) ∧
    (∀ (used schemaList : List String) (remote : QueryParams → GlueStream)
      (sqlT : AgateTable) (f : AgateTable → AgateTable),
      targetSchemasOf used schemaList ≠ [] →
      get_one_catalog "" used schemaList remote sqlT f =
        .error (.runtime "Glue GetTables: Need catalog id")) ∧
    (∀ (schema : String) (remote : QueryParams → GlueStream)
      (fb : List AthenaRelation),
      list_relations_without_caching "" schema remote fb =
        .error (.runtime "Glue GetTables: Need catalog id")) := by
  refine ⟨?_, ?_, ?_⟩
  · intro catalog_id name remote h
    by_cases hc : catalog_id = ""
    · exact ⟨⟨"Glue GetTables: Need catalog id", by simp [retrieve_glue_tables, hc]⟩,
        by simp [retrieve_glue_tables, hc]⟩
    · have hn : name = "" := h.resolve_left hc
      exact ⟨⟨"Glue GetTables: Need database name",
        by simp [retrieve_glue_tables, hc, hn]⟩, by simp [retrieve_glue_tables, hc, hn]⟩
  · intro used schemaList remote sqlT f h
    rcases hts : targetSchemasOf used schemaList with _ | ⟨s, rest⟩
    · exact absurd hts h
    · simp [get_one_catalog, hts, buildAllRows, rowsForSchema, retrieve_glue_tables]
  · intro schema remote fb
    simp [list_relations_without_caching, retrieve_glue_tables]

/-- Closed instance of `retrieve_glue_tables_precondition_spec`. -/
theorem retrieve_glue_tables_precondition_spec_witness :
    ((∃ msg, (retrieve_glue_tables "" "s1" sampleFailingRemote).1 =
      .error (.runtime msg)) ∧
     (retrieve_glue_tables "" "s1" sampleFailingRemote).2 = []) ∧
    ((∃ msg, (retrieve_glue_tables "awsdatacatalog" "" sampleFailingRemote).1 =
      .error (.runtime msg)) ∧
     (retrieve_glue_tables "awsdatacatalog" "" sampleFailingRemote).2 = []) ∧
    get_one_catalog "" ["s1"] ["s1"] sampleFailingRemote sampleSqlTable sampleFilter =
      .error (.runtime "Glue GetTables: Need catalog id") ∧
    list_relations_without_caching "" "s1" sampleFailingRemote [] =
      .error (.runtime "Glue GetTables: Need catalog id") :=
  ⟨retrieve_glue_tables_precondition_spec.1 "" "s1" sampleFailingRemote (.inl rfl),
   retrieve_glue_tables_precondition_spec.1 "awsdatacatalog" "" sampleFailingRemote
     (.inr rfl),
   retrieve_glue_tables_precondition_spec.2.1 ["s1"] ["s1"] sampleFailingRemote
     sampleSqlTable sampleFilter (by decide),
   retrieve_glue_tables_precondition_spec.2.2 "s1" sampleFailingRemote []⟩

/-- C1: when a `ClientError` escapes the Glue assembly loop of
`_get_one_catalog` (table retrieval over the working schemas), every
partially accumulated Glue-derived row is discarded and the result is
exactly the SQL-execution path's raw table for the same
(information_schema, schemas, manifest) passed through the same post-filter;
in particular the result is the same whatever failing Glue stream produced
it, so no Glue-derived row reaches the output of a request that fell back. -/
theorem get_one_catalog_fallback_spec :
    ∀ (target_database : String) (used schemaList : List String)
      (remote remote2 : QueryParams → GlueStream) (sqlT : AgateTable)
      (f : AgateTable → AgateTable) (e e2 : ClientError),
      buildAllRows target_database (targetSchemasOf used schemaList) remote =
        .error (.client e) →
      (get_one_catalog target_database used schemaList remote sqlT f =
        .ok (f sqlT)) ∧
      (buildAllRows target_database (targetSchemasOf used schemaList) remote2 =
          .error (.client e2) →
        get_one_catalog target_database used schemaList remote sqlT f =
          get_one_catalog target_database used schemaList remote2 sqlT f) := by
  intro target_database used schemaList remote remote2 sqlT f e e2 h
  constructor
  · simp [get_one_catalog, h]
  · intro h2
    simp [get_one_catalog, h, h2]

/-- Closed instance of `get_one_catalog_fallback_spec`: two different
mid-stream failures (one after yielding one table, one after yielding two)
both produce exactly the filtered SQL fallback table. -/
theorem get_one_catalog_fallback_spec_witness :
    (get_one_catalog "awsdatacatalog" ["s1"] ["s1"] sampleFailingRemote
        sampleSqlTable sampleFilter = .ok (sampleFilter sampleSqlTable)) ∧
    (get_one_catalog "awsdatacatalog" ["s1"] ["s1"] sampleFailingRemote
        sampleSqlTable sampleFilter =
      get_one_catalog "awsdatacatalog" ["s1"] ["s1"] sampleFailingRemote2
        sampleSqlTable sampleFilter) :=
  have h := get_one_catalog_fallback_spec "awsdatacatalog" ["s1"] ["s1"]
    sampleFailingRemote sampleFailingRemote2 sampleSqlTable sampleFilter
    ⟨"AccessDeniedException", "denied"⟩ ⟨"ThrottlingException", "slow down"⟩ rfl
  ⟨h.1, h.2 rfl⟩

/-- The three column-level fields a flattened catalog row carries for its
column: dict lookup on the row built by `columnRow` over the table-wide
base. -/
theorem lookupKey_columnRow (target_database schema : String) (t : GlueTable)
    (rel_type : RelationType) (idx : Nat) (col : GlueColumn) :
    lookupKey (columnRow (tableRowBase target_database schema t rel_type) idx col)
        "column_index" = some (.nat idx) ∧
    lookupKey (columnRow (tableRowBase target_database schema t rel_type) idx col)
        "column_name" = some (.str col.name) ∧
    lookupKey (columnRow (tableRowBase target_database schema t rel_type) idx col)
        "column_type" = some (.str col.typ) :=
  ⟨rfl, rfl, rfl⟩

/-- C2: a table's column sequence is exactly the storage-descriptor columns
followed by the partition-key columns in their original orders (no
deduplication, no sorting): `list_relations_without_caching` creates the
relation with `column_information = Columns + PartitionKeys`, and
`_get_one_catalog` flattens one row per column of that combined list, the
i-th row carrying the i-th combined column's name and type with zero-based
index i. -/
theorem column_assembly_spec :
    ∀ (target_database schema : String) (t : GlueTable) (rt : RelationType),
      get_rel_type_from_glue_response t = .ok rt →
      (relationsFromTables target_database schema [t] = .ok
        [{ database := target_database, schema := schema, identifier := t.name,
           quotePolicy := ⟨true, true, true⟩, relType := rt,
           columnInformation := t.columns ++ t.partitionKeys }]) ∧
      (∃ rows, rowsForTable target_database schema t = .ok rows ∧
        rows.length = (t.columns ++ t.partitionKeys).length ∧
        ∀ (i : Nat) (col : GlueColumn),
          (t.columns ++ t.partitionKeys).get? i = some col →
          ∃ row, rows.get? i = some row ∧
            lookupKey row "column_index" = some (.nat i) ∧
            lookupKey row "column_name" = some (.str col.name) ∧
            lookupKey row "column_type" = some (.str col.typ)) := by
  intro target_database schema t rt h
  constructor
  · simp [relationsFromTables, h]
  · refine ⟨(t.columns ++ t.partitionKeys).enum.map
      (fun p => columnRow (tableRowBase target_database schema t rt) p.1 p.2),
      ?_, ?_, ?_⟩
    · simp [rowsForTable, h]
    · simp
    · intro i col hcol
      have hget : ((t.columns ++ t.partitionKeys).enum.map
          (fun p => columnRow (tableRowBase target_database schema t rt) p.1 p.2)).get? i =
          some (columnRow (tableRowBase target_database schema t rt) i col) := by
        rw [List.get?_eq_getElem?, List.getElem?_map, List.getElem?_enum,
          ← List.get?_eq_getElem?, hcol]
        rfl
      exact ⟨columnRow (tableRowBase target_database schema t rt) i col, hget,
        (lookupKey_columnRow target_database schema t rt i col).1,
        (lookupKey_columnRow target_database schema t rt i col).2.1,
        (lookupKey_columnRow target_database schema t rt i col).2.2⟩

/-- Closed instance of `column_assembly_spec` at a table with storage
columns [a, b] and partition key [p]: the combined sequence is [a, b, p]
with indices 0, 1, 2. -/
theorem column_assembly_spec_witness :
    (relationsFromTables "awsdatacatalog" "s1" [sampleExternalTable] = .ok
      [{ database := "awsdatacatalog", schema := "s1",
         identifier := sampleExternalTable.name,
         quotePolicy := ⟨true, true, true⟩, relType := .table,
         columnInformation :=
           sampleExternalTable.columns ++ sampleExternalTable.partitionKeys }]) ∧
    (∃ rows, rowsForTable "awsdatacatalog" "s1" sampleExternalTable = .ok rows ∧
      rows.length =
        (sampleExternalTable.columns ++ sampleExternalTable.partitionKeys).length ∧
      ∀ (i : Nat) (col : GlueColumn),
        (sampleExternalTable.columns ++ sampleExternalTable.partitionKeys).get? i =
          some col →
        ∃ row, rows.get? i = some row ∧
          lookupKey row "column_index" = some (.nat i) ∧
          lookupKey row "column_name" = some (.str col.name) ∧
          lookupKey row "column_type" = some (.str col.typ)) :=
  column_assembly_spec "awsdatacatalog" "s1" sampleExternalTable .table rfl
